import Mathlib

/-!
Verification of the document-triage pipeline (classify, extract, route).

The development shallowly embeds the three source files:
  - src/ai/flows/parse-json-webhook.ts  (deterministic JSON webhook validation)
  - src/ai/flows/route-action.ts        (action router with simulated REST calls)
  - src/app/page.tsx                    (pipeline orchestrator handleProcessRequest)

External collaborators (the hosted model, file reading, the classify and
email/pdf extraction flows whose sources are not part of the embedded code)
are modelled as parameters: functions returning Except values, so that a
throwing JavaScript call is an error result.  JavaScript builtins JSON.parse
and JSON.stringify are modelled by an executable JSON parser and printer over
an inductive JSON value type (numbers are modelled as integers; no property
proved here depends on numerics).
-/

/-- JSON values as produced by JSON.parse.  Objects keep their key/value
pairs in insertion order; a lookup takes the last binding for a key, matching
the JavaScript semantics of duplicate keys in an object literal. -/
inductive Json where
  | null : Json
  | bool (b : Bool) : Json
  | num (n : Int) : Json
  | str (s : String) : Json
  | arr (elems : List Json) : Json
  | obj (fields : List (String × Json)) : Json
deriving Repr

/-- Lookup of a field in an object, taking the last binding for the key;
returns none on non-objects, as property access on them is never needed
by the embedded schema check. -/
def Json.getField : Json → String → Option Json
  | .obj fields, k => (fields.reverse.find? (fun p => p.1 = k)).map (fun p => p.2)
  | _, _ => none

/-- Whether a JSON value is a string (the zod z.string() type test). -/
def Json.isStr : Json → Bool
  | .str _ => true
  | _ => false

/-- Whether a JSON value is a plain object (the zod z.record type test;
zod rejects null and arrays here, as their parsed type is not object). -/
def Json.isObj : Json → Bool
  | .obj _ => true
  | _ => false

/-- Whitespace characters skipped by the JSON grammar. -/
def jsonWs (c : Char) : Bool :=
  c = ' ' || c = '\t' || c = '\n' || c = '\r'

/-- Drop leading JSON whitespace. -/
def skipWs : List Char → List Char
  | [] => []
  | c :: cs => if jsonWs c then skipWs cs else c :: cs

/-- Scan a JSON string literal after its opening quote, handling the
common escape sequences; returns the decoded string and the rest of the
input, or none when the literal is unterminated or uses an escape the
model does not cover. -/
def scanStringLit : List Char → String → Option (String × List Char)
  | [], _ => none
  | '"' :: rest, acc => some (acc, rest)
  | '\\' :: e :: rest, acc =>
    match e with
    | '"' => scanStringLit rest (acc.push '"')
    | '\\' => scanStringLit rest (acc.push '\\')
    | '/' => scanStringLit rest (acc.push '/')
    | 'n' => scanStringLit rest (acc.push '\n')
    | 't' => scanStringLit rest (acc.push '\t')
    | 'r' => scanStringLit rest (acc.push '\r')
    | _ => none
  | '\\' :: [], _ => none
  | c :: rest, acc => scanStringLit rest (acc.push c)

/-- Scan a run of decimal digits, accumulating their value. -/
def scanDigits : List Char → Nat → Nat × List Char
  | [], acc => (acc, [])
  | c :: cs, acc =>
    if c.isDigit then scanDigits cs (acc * 10 + (c.toNat - 48)) else (acc, c :: cs)

/-- Scan a JSON number.  The fractional part and exponent are consumed but
the value is kept as the integer part: numeric precision plays no role in
any verified property. -/
def scanNumber (cs : List Char) : Option (Int × List Char) :=
  let (neg, cs1) := match cs with
    | '-' :: rest => (true, rest)
    | _ => (false, cs)
  match cs1 with
  | c :: _ =>
    if c.isDigit then
      let (d, cs2) := scanDigits cs1 0
      let n : Int := Int.ofNat d
      let cs3 := match cs2 with
        | '.' :: rest => (scanDigits rest 0).2
        | _ => cs2
      let cs4 := match cs3 with
        | 'e' :: rest => (scanDigits (match rest with
            | '+' :: r => r
            | '-' :: r => r
            | r => r) 0).2
        | 'E' :: rest => (scanDigits (match rest with
            | '+' :: r => r
            | '-' :: r => r
            | r => r) 0).2
        | _ => cs3
      some (if neg then -n else n, cs4)
    else none
  | [] => none

/-- Parsing mode of the recursive-descent JSON parser: a single value, the
remaining elements of an array, or the remaining members of an object. -/
inductive PMode where
  | value : PMode
  | elems (acc : List Json) : PMode
  | members (acc : List (String × Json)) : PMode

/-- Fueled recursive-descent parser, the model of the builtin JSON.parse.
In elems (members) mode it returns the finished array (object).  The fuel
only bounds the recursion; jsParse supplies enough for any input of the
given length. -/
def parseAux : Nat → PMode → List Char → Except String (Json × List Char)
  | 0, _, _ => .error "Unexpected end of JSON input"
  | Nat.succ fuel, .value, cs =>
    (match skipWs cs with
    | [] => .error "Unexpected end of JSON input"
    | 'n' :: 'u' :: 'l' :: 'l' :: rest => .ok (.null, rest)
    | 't' :: 'r' :: 'u' :: 'e' :: rest => .ok (.bool true, rest)
    | 'f' :: 'a' :: 'l' :: 's' :: 'e' :: rest => .ok (.bool false, rest)
    | '"' :: rest =>
      (match scanStringLit rest "" with
      | some (s, rest1) => .ok (.str s, rest1)
      | none => .error "Unterminated string in JSON")
    | '[' :: rest =>
      (match skipWs rest with
       | ']' :: rest1 => .ok (.arr [], rest1)
       | _ => parseAux fuel (.elems []) rest)
    | '\x7b' :: rest =>
      (match skipWs rest with
       | '\x7d' :: rest1 => .ok (.obj [], rest1)
       | _ => parseAux fuel (.members []) rest)
    | c :: rest =>
      if c.isDigit || c = '-' then
        match scanNumber (c :: rest) with
        | some (n, rest1) => .ok (.num n, rest1)
        | none => .error "Unexpected token in JSON"
      else .error "Unexpected token in JSON")
  | Nat.succ fuel, .elems acc, cs =>
    (match parseAux fuel .value cs with
    | .error e => .error e
    | .ok (v, rest) =>
      match skipWs rest with
      | ',' :: rest1 => parseAux fuel (.elems (acc ++ [v])) rest1
      | ']' :: rest1 => .ok (.arr (acc ++ [v]), rest1)
      | _ => .error "Expected comma or closing bracket in JSON array")
  | Nat.succ fuel, .members acc, cs =>
    (match skipWs cs with
    | '"' :: rest =>
      (match scanStringLit rest "" with
      | none => .error "Unterminated string in JSON"
      | some (k, rest1) =>
        match skipWs rest1 with
        | ':' :: rest2 =>
          (match parseAux fuel .value rest2 with
           | .error e => .error e
           | .ok (v, rest3) =>
             match skipWs rest3 with
             | ',' :: rest4 => parseAux fuel (.members (acc ++ [(k, v)])) rest4
             | '\x7d' :: rest4 => .ok (.obj (acc ++ [(k, v)]), rest4)
             | _ => .error "Expected comma or closing brace in JSON object")
        | _ => .error "Expected colon in JSON object")
    | _ => .error "Expected string key in JSON object")

/-- Model of the builtin JSON.parse: parse one JSON value and require the
remaining input to be whitespace only. -/
def jsParse (s : String) : Except String Json :=
  match parseAux (2 * s.length + 2) .value s.data with
  | .error e => .error e
  | .ok (v, rest) =>
    match skipWs rest with
    | [] => .ok v
    | _ => .error "Unexpected non-whitespace character after JSON data"

/-- Escape a string for JSON output, the model of JSON.stringify on strings
(covering the escapes the scanner covers). -/
def jsonEscape (s : String) : String :=
  s.data.foldl (fun acc c =>
    if c = '"' then acc ++ "\\\""
    else if c = '\\' then acc ++ "\\\\"
    else if c = '\n' then acc ++ "\\n"
    else if c = '\t' then acc ++ "\\t"
    else if c = '\r' then acc ++ "\\r"
    else acc.push c) ""

mutual

/-- Model of the builtin JSON.stringify (no indentation): object fields in
insertion order, no spaces. -/
def Json.stringify : Json → String
  | .null => "null"
  | .bool true => "true"
  | .bool false => "false"
  | .num n => toString n
  | .str s => "\"" ++ jsonEscape s ++ "\""
  | .arr elems => "[" ++ String.intercalate "," (stringifyElems elems) ++ "]"
  | .obj fields => "\x7b" ++ String.intercalate "," (stringifyFields fields) ++ "\x7d"

/-- Stringify the elements of an array. -/
def stringifyElems : List Json → List String
  | [] => []
  | v :: vs => Json.stringify v :: stringifyElems vs

/-- Stringify the fields of an object. -/
def stringifyFields : List (String × Json) → List String
  | [] => []
  | (k, v) :: fs => ("\"" ++ jsonEscape k ++ "\":" ++ Json.stringify v) :: stringifyFields fs

end

/-- Output record of the JSON webhook flow (ParseJsonWebhookOutputSchema). -/
structure ParseJsonWebhookOutput where
  isValid : Bool
  anomalies : List String
deriving Repr, DecidableEq

/-- Model of the zod check JsonWebhookDataSchema.parse from
parse-json-webhook.ts: the value must be an object carrying a string
event_type, a string timestamp and an object data field; zod strips unknown
keys and its thrown message (modelled as a concatenation of the issue
descriptions) lists each violation. -/
def JsonWebhookDataSchema.issues (v : Json) : List String :=
  if v.isObj then
    (match v.getField "event_type" with
     | some f => if f.isStr then [] else ["event_type: Expected string"]
     | none => ["event_type: Required"]) ++
    (match v.getField "timestamp" with
     | some f => if f.isStr then [] else ["timestamp: Expected string"]
     | none => ["timestamp: Required"]) ++
    (match v.getField "data" with
     | some f => if f.isObj then [] else ["data: Expected record"]
     | none => ["data: Required"])
  else ["Expected object"]

/-- Model of JsonWebhookDataSchema.parse: returns the value when it
conforms, otherwise throws, with the issue list joined into the error
message. -/
def JsonWebhookDataSchema.parseResult (v : Json) : Except String Json :=
  match JsonWebhookDataSchema.issues v with
  | [] => .ok v
  | is => .error (String.intercalate "; " is)

/-- Embedding of parseJsonWebhookFlow from parse-json-webhook.ts: parse the
webhookData string, validate it against JsonWebhookDataSchema, return
isValid true with no anomalies on success; any thrown error is caught and
returned as isValid false with the single error message as the anomaly
list.  The flow is a pure function of the input string: the prompt defined
next to it is never invoked, so no model response enters the computation. -/
def parseJsonWebhookFlow (webhookData : String) : ParseJsonWebhookOutput :=
  match jsParse webhookData with
  | .error e => { isValid := false, anomalies := [e] }
  | .ok v =>
    match JsonWebhookDataSchema.parseResult v with
    | .error e => { isValid := false, anomalies := [e] }
    | .ok _ => { isValid := true, anomalies := [] }

/-- Exported wrapper parseJsonWebhook delegates to the flow. -/
def parseJsonWebhook (webhookData : String) : ParseJsonWebhookOutput :=
  parseJsonWebhookFlow webhookData

/-- Input record of the action router (RouteActionInputSchema from
route-action.ts): the extraction output as a record, plus the classified
intent and format strings. -/
structure RouteActionInput where
  agentOutput : Json
  intent : String
  format : String

/-- Output record of the action router (RouteActionOutputSchema). -/
structure RouteActionOutput where
  actionTaken : String
  details : String
deriving Repr, DecidableEq

/-- Record of one simulated REST call made by the router: the endpoint and
the payload handed to simulateRestCall. -/
structure SimCall where
  endpoint : String
  payload : Json

/-- Embedding of simulateRestCall from route-action.ts: no real call is
made; the returned description interpolates the endpoint and the
JSON.stringify of the payload. -/
def simulateRestCall (endpoint : String) (data : Json) : String :=
  let payload := Json.stringify data
  s!"Simulated {endpoint} call with data: {payload}"

/-- Embedding of routeActionFlow from route-action.ts.  The model call is a
parameter: promptOutput is the structured response, none when the model
returned no output.  The deterministic tail maps the chosen action to its
endpoint by the source's if/else chain; an unmatched (or absent) choice
returns the fixed no_action_taken record with no simulated call, otherwise
the simulated call's description becomes details and actionTaken carries
the choice through (with the source's unknown fallback for an absent one).
The second component lists the simulated calls performed. -/
def routeActionFlow (promptOutput : Option RouteActionOutput)
    (input : RouteActionInput) : RouteActionOutput × List SimCall :=
  let choice : Option String := promptOutput.map (fun o => o.actionTaken)
  if choice = some "create_ticket" then
    let result := simulateRestCall "/crm/create_ticket" input.agentOutput
    ({ actionTaken := choice.getD "unknown", details := result },
     [{ endpoint := "/crm/create_ticket", payload := input.agentOutput }])
  else if choice = some "escalate_issue" then
    let result := simulateRestCall "/crm/escalate" input.agentOutput
    ({ actionTaken := choice.getD "unknown", details := result },
     [{ endpoint := "/crm/escalate", payload := input.agentOutput }])
  else if choice = some "flag_compliance_risk" then
    let result := simulateRestCall "/risk_alert" input.agentOutput
    ({ actionTaken := choice.getD "unknown", details := result },
     [{ endpoint := "/risk_alert", payload := input.agentOutput }])
  else
    ({ actionTaken := "no_action_taken",
       details := "No action was taken as no route matched." }, [])

/-- Exported wrapper routeAction delegates to the flow; the model call
inside the flow is the promptOutput parameter. -/
def routeAction (promptOutput : Option RouteActionOutput)
    (input : RouteActionInput) : RouteActionOutput × List SimCall :=
  routeActionFlow promptOutput input

/-- Modelled from the spec: the declared input kind offered by the input
form (input-form.tsx is not among the embedded sources); section 6 fixes it
to one of Email, JSON, PDF. -/
inductive InputType where
  | Email : InputType
  | JSON : InputType
  | PDF : InputType
deriving Repr, DecidableEq

/-- String carried by the input type when it is interpolated into the
classifier input. -/
def InputType.str : InputType → String
  | .Email => "Email"
  | .JSON => "JSON"
  | .PDF => "PDF"

/-- Modelled from the spec: input of the classify-document flow
(classify-document.ts is not among the embedded sources); section 4.3 gives
the shape { documentContent, documentFormat }. -/
structure ClassifyDocumentInput where
  documentContent : String
  documentFormat : String
deriving Repr, DecidableEq

/-- Modelled from the spec: output of the classify-document flow; section 3
gives the shape { format, intent }, both strings chosen by the model. -/
structure ClassifyDocumentOutput where
  intent : String
  format : String
deriving Repr, DecidableEq

/-- Selected file, known to the orchestrator by its name; its bytes live
behind the external fileToDataUri collaborator. -/
structure FileRef where
  name : String
deriving Repr, DecidableEq

/-- Output of the specialized extraction stage: the Email and PDF variants
return model-produced structured records (modelled as JSON values, their
sources are not among the embedded files), the JSON variant returns the
deterministic webhook check's record. -/
inductive AgentOut where
  | email (o : Json) : AgentOut
  | json (o : ParseJsonWebhookOutput) : AgentOut
  | pdf (o : Json) : AgentOut

/-- Record shape in which an extraction output is handed to the router
(the JavaScript value is passed through unchanged; the JSON variant's
record is the isValid/anomalies object). -/
def AgentOut.toJson : AgentOut → Json
  | .email o => o
  | .json p => Json.obj [("isValid", .bool p.isValid),
      ("anomalies", .arr (p.anomalies.map Json.str))]
  | .pdf o => o

/-- External collaborators of one pipeline run: each model-backed flow and
the file reader, as functions that either return a value or throw.  The
router's model call returns its structured output, possibly absent. -/
structure Env where
  classifyDocument : ClassifyDocumentInput → Except String ClassifyDocumentOutput
  extractEmailData : String → Except String Json
  extractPdfData : String → Except String Json
  routeActionPrompt : RouteActionInput → Except String (Option RouteActionOutput)
  fileToDataUri : FileRef → Except String String

/-- Payload of one audit-log entry: the Processing placeholder, a resolved
stage output, or an error record.  The extracted payload is optional
because the orchestrator logs the specialized output even when no variant
matched and it is undefined.  Timestamps (wall-clock) and input snapshots
are omitted: no verified property depends on them. -/
inductive LogOut where
  | processing : LogOut
  | classified (o : ClassifyDocumentOutput) : LogOut
  | extracted (o : Option AgentOut) : LogOut
  | routed (o : RouteActionOutput) : LogOut
  | failed (msg : String) : LogOut

/-- One audit-log entry: the agent label it was recorded under, its
payload, and the optional action label added by the router entry. -/
structure LogEntry where
  agent : String
  output : LogOut
  action : Option String := none

/-- Component state of the page, before or after a run: the form inputs,
the loading flag, each stage's output and error, the specialized agent's
display name, and the append-only memory log. -/
structure AppState where
  inputType : InputType
  inputValue : String
  inputFile : Option FileRef
  isLoading : Bool
  classifierOutput : Option ClassifyDocumentOutput
  classifierError : Option String
  specializedAgentOutput : Option AgentOut
  specializedAgentError : Option String
  specializedAgentName : String
  actionRouterOutput : Option RouteActionOutput
  actionRouterError : Option String
  memoryLog : List LogEntry

/-- JavaScript's m or-else fallback on an error message: the fallback is
used exactly when the message is the empty string (falsy). -/
def jsOr (m fallback : String) : String :=
  if m = "" then fallback else m

/-- Model of the whitespace set of the JavaScript string trim. -/
def isJsWs (c : Char) : Bool :=
  c = ' ' || c = '\t' || c = '\n' || c = '\r' || c = '\x0b' || c = '\x0c'

/-- Model of the JavaScript string trim: drop leading and trailing
whitespace. -/
def jsTrim (s : String) : String :=
  String.mk (((s.data.dropWhile isJsWs).reverse.dropWhile isJsWs).reverse)

/-- Router step of handleProcessRequest (page.tsx): entered only when the
extraction output and both classified strings are truthy; a throwing route
call records the error against the router and the run still completes. -/
def runRouter (env : Env) (s : AppState) (intent format : String)
    (ao : Option AgentOut) : AppState :=
  match ao with
  | none => { s with isLoading := false }
  | some a =>
    if intent = "" || format = "" then { s with isLoading := false }
    else
      let rin : RouteActionInput := { agentOutput := a.toJson, intent := intent, format := format }
      let log1 := s.memoryLog ++ [{ agent := "Action Router", output := .processing }]
      match env.routeActionPrompt rin with
      | .error e =>
        { s with actionRouterError := some (jsOr e "Error in Action Router"),
                 memoryLog := log1 ++ [{ agent := "Action Router", output := .failed e }],
                 isLoading := false }
      | .ok mout =>
        let out := (routeAction mout rin).1
        { s with actionRouterOutput := some out,
                 memoryLog := log1 ++ [{ agent := "Action Router", output := .routed out,
                                         action := some ("Action: " ++ out.actionTaken) }],
                 isLoading := false }

/-- Common tail of the specialized-agent step: record the (possibly
undefined) output, append the resolved log entry under the closure-captured
agent name, and continue with the router step. -/
def finishExtract (env : Env) (s : AppState) (capturedName intent format : String)
    (ao : Option AgentOut) : AppState :=
  let s1 := { s with specializedAgentOutput := ao,
                     memoryLog := s.memoryLog ++ [{ agent := capturedName, output := .extracted ao }] }
  runRouter env s1 intent format ao

/-- Specialized-agent step of handleProcessRequest: dispatch on the
classified format string.  A falsy (empty) format skips the step entirely;
an unmatched non-empty format runs the step's common tail with an undefined
output; Email and PDF call their model-backed flows (a throw ends the run
with the error recorded against the stage), and JSON runs the deterministic
webhook check.  Resolved and error entries are logged under the
closure-captured agent name, which the same-run setSpecializedAgentName
calls do not affect. -/
def runExtract (env : Env) (s : AppState) (capturedName content intent format : String) :
    AppState :=
  if format = "" then { s with isLoading := false }
  else if format = "Email" then
    let sN := { s with specializedAgentName := "Email Agent",
                       memoryLog := s.memoryLog ++ [{ agent := "Email Agent", output := .processing }] }
    match env.extractEmailData s.inputValue with
    | .error e =>
      { sN with specializedAgentError := some (jsOr e ("Error in " ++ capturedName)),
                memoryLog := sN.memoryLog ++ [{ agent := capturedName, output := .failed e }],
                isLoading := false }
    | .ok o => finishExtract env sN capturedName intent format (some (.email o))
  else if format = "JSON" then
    let sN := { s with specializedAgentName := "JSON Agent",
                       memoryLog := s.memoryLog ++ [{ agent := "JSON Agent", output := .processing }] }
    finishExtract env sN capturedName intent format (some (.json (parseJsonWebhook s.inputValue)))
  else if format = "PDF" then
    let sN := { s with specializedAgentName := "PDF Agent",
                       memoryLog := s.memoryLog ++ [{ agent := "PDF Agent", output := .processing }] }
    match env.extractPdfData content with
    | .error e =>
      { sN with specializedAgentError := some (jsOr e ("Error in " ++ capturedName)),
                memoryLog := sN.memoryLog ++ [{ agent := capturedName, output := .failed e }],
                isLoading := false }
    | .ok o => finishExtract env sN capturedName intent format (some (.pdf o))
  else
    finishExtract env s capturedName intent format none

/-- Input record handed to the classify flow: for a PDF submission the
document content is the file-name note, otherwise the text content, with
the declared input kind as the format hint. -/
def classifierInputFor (ty : InputType) (text : String) (file : Option FileRef) :
    ClassifyDocumentInput :=
  { documentContent :=
      if ty = .PDF then "PDF File: " ++ ((file.map (fun f => f.name)).getD "undefined")
      else text,
    documentFormat := ty.str }

/-- Classifier step of handleProcessRequest: log the placeholder, call the
classify flow; a throw records the error (with the generic fallback when
the thrown message is falsy) and ends the run, success records the result
and continues with the specialized-agent step. -/
def runClassify (env : Env) (s : AppState) (capturedName content : String) : AppState :=
  let cin : ClassifyDocumentInput := classifierInputFor s.inputType s.inputValue s.inputFile
  let log1 := s.memoryLog ++ [{ agent := "Classifier", output := .processing }]
  match env.classifyDocument cin with
  | .error e =>
    { s with classifierError := some (jsOr e "Error in Classifier Agent"),
             memoryLog := log1 ++ [{ agent := "Classifier", output := .failed e }],
             isLoading := false }
  | .ok out =>
    let s1 := { s with classifierOutput := some out,
                       memoryLog := log1 ++ [{ agent := "Classifier", output := .classified out }] }
    runExtract env s1 capturedName content out.intent out.format

/-- Embedding of handleProcessRequest from page.tsx: set loading, reset the
per-stage outputs and errors (the memory log is kept), resolve the document
content and validate the input (a PDF submission needs a selected file and
a readable one, any other kind needs non-blank text; a violation returns
before any stage), then run the classifier, specialized and router steps.
Closure-captured state values are those of the pre-run state s0. -/
def handleProcessRequest (env : Env) (s0 : AppState) : AppState :=
  let s := { s0 with isLoading := true,
                     classifierOutput := none, classifierError := none,
                     specializedAgentOutput := none, specializedAgentError := none,
                     actionRouterOutput := none, actionRouterError := none }
  let capturedName := s0.specializedAgentName
  if s0.inputType = .PDF then
    match s0.inputFile with
    | some f =>
      (match env.fileToDataUri f with
       | .error _ =>
         { s with specializedAgentError := some "Failed to read PDF file.", isLoading := false }
       | .ok uri => runClassify env s capturedName uri)
    | none => { s with isLoading := false }
  else if jsTrim s0.inputValue = "" then { s with isLoading := false }
  else runClassify env s capturedName s0.inputValue

/-- Whether a log entry records the router stage being entered: its
placeholder or resolved entry.  Matching on the payload first keeps the
test independent of a specialized agent name that happens to collide with
the router's label. -/
def isRouterStageEntry (e : LogEntry) : Bool :=
  match e.output with
  | .processing => e.agent == "Action Router"
  | .routed _ => e.agent == "Action Router"
  | _ => false

/-- Number of router-stage entries in a log. -/
def routerEntries (l : List LogEntry) : Nat :=
  (l.filter isRouterStageEntry).length

/-- Whether a log entry records an error. -/
def isErrorEntry (e : LogEntry) : Bool :=
  match e.output with
  | .failed _ => true
  | _ => false

/-- Environment whose collaborators all fail, for concrete runs. -/
def stubEnv : Env :=
  { classifyDocument := fun _ => .error "unavailable",
    extractEmailData := fun _ => .error "unavailable",
    extractPdfData := fun _ => .error "unavailable",
    routeActionPrompt := fun _ => .error "unavailable",
    fileToDataUri := fun _ => .error "unavailable" }

/-- Environment classifying everything as an unrecognized XML format, for
concrete runs of the unmatched-format path. -/
def xmlEnv : Env :=
  { classifyDocument := fun _ => .ok { intent := "Complaint", format := "XML" },
    extractEmailData := fun _ => .error "unavailable",
    extractPdfData := fun _ => .error "unavailable",
    routeActionPrompt := fun _ => .error "unavailable",
    fileToDataUri := fun _ => .error "unavailable" }

/-- Environment with a successful Email classification and extraction and a
failing router model call, for concrete runs of the router-failure path. -/
def routerFailEnv : Env :=
  { classifyDocument := fun _ => .ok { intent := "Complaint", format := "Email" },
    extractEmailData := fun _ => .ok (.obj [("sender", .str "a")]),
    extractPdfData := fun _ => .error "unavailable",
    routeActionPrompt := fun _ => .error "boom",
    fileToDataUri := fun _ => .error "unavailable" }

/-- Fresh component state with the given form inputs, no file, and an empty
memory log, matching the initial useState values. -/
def initState (ty : InputType) (text : String) : AppState :=
  { inputType := ty, inputValue := text, inputFile := none, isLoading := false,
    classifierOutput := none, classifierError := none,
    specializedAgentOutput := none, specializedAgentError := none,
    specializedAgentName := "Specialized Agent",
    actionRouterOutput := none, actionRouterError := none, memoryLog := [] }

/-- Log entries appended by the orchestrator, named for the shape
enumeration below: classifier placeholder, resolved and failed entries,
specialized-agent placeholder, resolved and failed entries, and router
placeholder, resolved and failed entries. -/
def logCp : LogEntry := { agent := "Classifier", output := .processing }

def logCc (out : ClassifyDocumentOutput) : LogEntry :=
  { agent := "Classifier", output := .classified out }

def logCf (e : String) : LogEntry := { agent := "Classifier", output := .failed e }

def logAp (nm : String) : LogEntry := { agent := nm, output := .processing }

def logEx (cap : String) (ao : Option AgentOut) : LogEntry :=
  { agent := cap, output := .extracted ao }

def logAf (cap e : String) : LogEntry := { agent := cap, output := .failed e }

def logRp : LogEntry := { agent := "Action Router", output := .processing }

def logRf (e : String) : LogEntry := { agent := "Action Router", output := .failed e }

def logRr (rout : RouteActionOutput) : LogEntry :=
  { agent := "Action Router", output := .routed rout,
    action := some ("Action: " ++ rout.actionTaken) }

/-- Common base of every final state: loading cleared and all per-stage
outputs and errors reset. -/
def finalBase (s0 : AppState) : AppState :=
  { s0 with isLoading := false,
            classifierOutput := none, classifierError := none,
            specializedAgentOutput := none, specializedAgentError := none,
            actionRouterOutput := none, actionRouterError := none }

/-- C1: an unparseable webhook string yields exactly isValid false with the
single parse-error message as the anomaly list.  The embedded flow is a
pure function of the input string alone — the prompt defined in the source
file never enters the computation — so the result is deterministic and
involves no model call. -/
theorem parseJsonWebhook_unparseable (s m : String) (h : jsParse s = .error m) :
    parseJsonWebhookFlow s = { isValid := false, anomalies := [m] } := by
  unfold parseJsonWebhookFlow
  rw [h]

/-- Witness for C1 at the concrete unparseable input "not json". -/
theorem parseJsonWebhook_unparseable_witness :
    jsParse "not json" = .error "Unexpected token in JSON" ∧
    parseJsonWebhookFlow "not json" =
      { isValid := false, anomalies := ["Unexpected token in JSON"] } :=
  ⟨rfl, parseJsonWebhook_unparseable "not json" "Unexpected token in JSON" rfl⟩

/-- C7: a webhook string parsing to an object with a string event_type, a
string timestamp and an object data field yields exactly isValid true with
no anomalies. -/
theorem parseJsonWebhook_wellformed (s : String) (fields : List (String × Json))
    (et ts : String) (d : List (String × Json))
    (h : jsParse s = .ok (.obj fields))
    (h1 : (Json.obj fields).getField "event_type" = some (.str et))
    (h2 : (Json.obj fields).getField "timestamp" = some (.str ts))
    (h3 : (Json.obj fields).getField "data" = some (.obj d)) :
    parseJsonWebhookFlow s = { isValid := true, anomalies := [] } := by
  unfold parseJsonWebhookFlow
  rw [h]
  simp [JsonWebhookDataSchema.parseResult, JsonWebhookDataSchema.issues,
    h1, h2, h3, Json.isStr, Json.isObj]

/-- Witness for C7 at the concrete input from the spec's schema example. -/
theorem parseJsonWebhook_wellformed_witness :
    jsParse "\x7b\"event_type\":\"x\",\"timestamp\":\"t\",\"data\":\x7b\x7d\x7d" =
      .ok (.obj [("event_type", .str "x"), ("timestamp", .str "t"), ("data", .obj [])]) ∧
    parseJsonWebhookFlow "\x7b\"event_type\":\"x\",\"timestamp\":\"t\",\"data\":\x7b\x7d\x7d" =
      { isValid := true, anomalies := [] } :=
  ⟨rfl,
   parseJsonWebhook_wellformed _
     [("event_type", .str "x"), ("timestamp", .str "t"), ("data", .obj [])]
     "x" "t" [] rfl rfl rfl rfl⟩

/-- C8: a webhook string that parses to an object without an event_type
field yields isValid false and a non-empty anomaly list. -/
theorem parseJsonWebhook_missing_event_type (s : String) (fields : List (String × Json))
    (h : jsParse s = .ok (.obj fields))
    (hmiss : (Json.obj fields).getField "event_type" = none) :
    (parseJsonWebhookFlow s).isValid = false ∧
    (parseJsonWebhookFlow s).anomalies ≠ [] := by
  unfold parseJsonWebhookFlow
  rw [h]
  simp [JsonWebhookDataSchema.parseResult, JsonWebhookDataSchema.issues, hmiss, Json.isObj]

/-- Witness for C8 at a concrete input carrying only timestamp and data. -/
theorem parseJsonWebhook_missing_event_type_witness :
    jsParse "\x7b\"timestamp\":\"t\",\"data\":\x7b\x7d\x7d" =
      .ok (.obj [("timestamp", .str "t"), ("data", .obj [])]) ∧
    (parseJsonWebhookFlow "\x7b\"timestamp\":\"t\",\"data\":\x7b\x7d\x7d").isValid = false ∧
    (parseJsonWebhookFlow "\x7b\"timestamp\":\"t\",\"data\":\x7b\x7d\x7d").anomalies ≠ [] :=
  ⟨rfl,
   parseJsonWebhook_missing_event_type _
     [("timestamp", .str "t"), ("data", .obj [])] rfl rfl⟩

/-- C4: when the model's chosen action (absent included) is none of the
three recognized actions, the routing decision is exactly the fixed
no_action_taken record and the list of simulated calls is empty. -/
theorem routeAction_no_match (po : Option RouteActionOutput) (input : RouteActionInput)
    (h : po.map (fun o => o.actionTaken) ∉
      ([some "create_ticket", some "escalate_issue", some "flag_compliance_risk"] :
        List (Option String))) :
    routeActionFlow po input =
      ({ actionTaken := "no_action_taken",
         details := "No action was taken as no route matched." }, []) := by
  simp only [List.mem_cons, List.not_mem_nil, or_false] at h
  push_neg at h
  unfold routeActionFlow
  simp [h.1, h.2.1, h.2.2]

/-- Witness for C4 with an absent model choice. -/
theorem routeAction_no_match_witness :
    routeActionFlow none { agentOutput := .obj [], intent := "RFQ", format := "JSON" } =
      ({ actionTaken := "no_action_taken",
         details := "No action was taken as no route matched." }, []) :=
  routeAction_no_match none { agentOutput := .obj [], intent := "RFQ", format := "JSON" }
    (by decide)

/-- C5: a recognized chosen action is mapped to its fixed endpoint, one
simulated call to that endpoint is performed with the agent output as
payload, the details field is the description that simulateRestCall
returns for it, and actionTaken carries the model's choice through. -/
theorem routeAction_matched (o : RouteActionOutput) (input : RouteActionInput)
    (h : o.actionTaken ∈
      (["create_ticket", "escalate_issue", "flag_compliance_risk"] : List String)) :
    routeActionFlow (some o) input =
      ({ actionTaken := o.actionTaken,
         details := simulateRestCall
           (if o.actionTaken = "create_ticket" then "/crm/create_ticket"
            else if o.actionTaken = "escalate_issue" then "/crm/escalate"
            else "/risk_alert") input.agentOutput },
       [{ endpoint :=
            (if o.actionTaken = "create_ticket" then "/crm/create_ticket"
             else if o.actionTaken = "escalate_issue" then "/crm/escalate"
             else "/risk_alert"),
          payload := input.agentOutput }]) := by
  simp only [List.mem_cons, List.not_mem_nil, or_false] at h
  rcases h with h | h | h <;> simp [routeActionFlow, h]

/-- Witness for C5 at the concrete choice escalate_issue. -/
theorem routeAction_matched_witness :
    routeActionFlow (some { actionTaken := "escalate_issue", details := "d" })
      { agentOutput := .obj [], intent := "Complaint", format := "Email" } =
      ({ actionTaken := "escalate_issue",
         details := simulateRestCall "/crm/escalate" (.obj []) },
       [{ endpoint := "/crm/escalate", payload := .obj [] }]) := by
  have h := routeAction_matched { actionTaken := "escalate_issue", details := "d" }
    { agentOutput := .obj [], intent := "Complaint", format := "Email" } (by decide)
  simpa using h

/-- C10: the routing decision's actionTaken always lies in the closed set
of the three recognized actions plus no_action_taken; the unknown fallback
is unreachable because the simulated-call branch requires the choice to
equal one of the three. -/
theorem routeAction_actionTaken_closed (po : Option RouteActionOutput)
    (input : RouteActionInput) :
    (routeActionFlow po input).1.actionTaken ∈
      (["create_ticket", "escalate_issue", "flag_compliance_risk", "no_action_taken"] :
        List String) := by
  unfold routeActionFlow
  dsimp only
  split_ifs with h1 h2 h3
  · rw [h1]; simp
  · rw [h2]; simp
  · rw [h3]; simp
  · simp

/-- C6: a submission of a non-PDF kind with blank (whitespace-only) text
halts before the classifier: no stage runs, no output or error is
recorded, and no log entry is appended, so a log that started empty stays
empty. -/
theorem blank_nonpdf_input_halts (env : Env) (s0 : AppState)
    (hty : s0.inputType ≠ InputType.PDF) (hblank : jsTrim s0.inputValue = "") :
    (handleProcessRequest env s0).memoryLog = s0.memoryLog ∧
    (handleProcessRequest env s0).classifierOutput = none ∧
    (handleProcessRequest env s0).classifierError = none ∧
    (handleProcessRequest env s0).specializedAgentOutput = none ∧
    (handleProcessRequest env s0).specializedAgentError = none ∧
    (handleProcessRequest env s0).actionRouterOutput = none ∧
    (handleProcessRequest env s0).actionRouterError = none ∧
    (handleProcessRequest env s0).isLoading = false := by
  unfold handleProcessRequest
  simp [hty, hblank]

/-- Witness for C6: a blank Email submission on an empty log. -/
theorem blank_nonpdf_input_halts_witness :
    InputType.Email ≠ InputType.PDF ∧
    (handleProcessRequest stubEnv (initState .Email "   ")).memoryLog = [] :=
  ⟨by decide,
   (blank_nonpdf_input_halts stubEnv (initState .Email "   ") (by decide) (by decide)).1⟩

/-- Counterexample for C2: with a classifier returning the unmatched format
XML on a valid Email-typed submission, no extraction result and no routing
decision are produced, but the memory log receives three entries (the
classifier placeholder, the resolved classification and the specialized
agent entry logged with an undefined output), not exactly one. -/
theorem unmatched_format_log_counterexample :
    (handleProcessRequest xmlEnv (initState .Email "hello")).specializedAgentOutput = none ∧
    (handleProcessRequest xmlEnv (initState .Email "hello")).actionRouterOutput = none ∧
    (handleProcessRequest xmlEnv (initState .Email "hello")).memoryLog.length = 3 ∧
    ¬ (handleProcessRequest xmlEnv (initState .Email "hello")).memoryLog.length = 1 :=
  ⟨rfl, rfl, rfl, by decide⟩

/-- C2 as amended: when the classifier succeeds with a format outside
Email, JSON and PDF on a validated submission, no extraction result, no
routing decision and no error are produced, and the log gains the two
classifying entries (placeholder and resolved, neither an error) plus,
when the format string is non-empty, one specialized-agent entry recording
an undefined output. -/
theorem unmatched_format_no_extraction (env : Env) (s0 s1 : AppState)
    (out : ClassifyDocumentOutput) (content : String)
    (hs1 : s1 = handleProcessRequest env s0)
    (hstart : if s0.inputType = InputType.PDF then
        ∃ f, s0.inputFile = some f ∧ env.fileToDataUri f = .ok content
      else jsTrim s0.inputValue ≠ "" ∧ content = s0.inputValue)
    (hclass : env.classifyDocument
      (classifierInputFor s0.inputType s0.inputValue s0.inputFile) = .ok out)
    (hfmt : out.format ∉ (["Email", "JSON", "PDF"] : List String)) :
    s1.specializedAgentOutput = none ∧ s1.actionRouterOutput = none ∧
    s1.classifierOutput = some out ∧
    s1.classifierError = none ∧ s1.specializedAgentError = none ∧
    s1.actionRouterError = none ∧
    s1.memoryLog = s0.memoryLog ++
      [{ agent := "Classifier", output := .processing },
       { agent := "Classifier", output := .classified out }] ++
      (if out.format = "" then []
       else [{ agent := s0.specializedAgentName, output := .extracted none }]) := by
  subst hs1
  simp only [List.mem_cons, List.not_mem_nil, or_false] at hfmt
  push_neg at hfmt
  obtain ⟨hne, hnj, hnp⟩ := hfmt
  unfold handleProcessRequest
  by_cases hty : s0.inputType = InputType.PDF
  · simp only [hty, if_true] at hstart ⊢
    obtain ⟨f, hf, huri⟩ := hstart
    rw [hty, hf] at hclass
    rw [hf]
    simp only [huri]
    unfold runClassify runExtract finishExtract runRouter
    simp only [hclass]
    by_cases hemp : out.format = ""
    · simp [hemp]
    · simp [hemp, hne, hnj, hnp]
  · simp only [hty, if_false] at hstart ⊢
    obtain ⟨hblank, hcont⟩ := hstart
    simp only [if_neg hty, if_neg hblank]
    unfold runClassify runExtract finishExtract runRouter
    simp only [hclass]
    by_cases hemp : out.format = ""
    · simp [hemp]
    · simp [hemp, hne, hnj, hnp]

/-- Witness for C2 as amended: a valid Email-typed submission classified
as the unmatched non-empty format XML. -/
theorem unmatched_format_no_extraction_witness :
    (handleProcessRequest xmlEnv (initState .Email "hello")).memoryLog =
      [{ agent := "Classifier", output := .processing },
       { agent := "Classifier",
         output := .classified { intent := "Complaint", format := "XML" } },
       { agent := "Specialized Agent", output := .extracted none }] := by
  have h := unmatched_format_no_extraction xmlEnv (initState .Email "hello")
    (handleProcessRequest xmlEnv (initState .Email "hello"))
    { intent := "Complaint", format := "XML" } "hello"
    rfl (by exact ⟨by decide, rfl⟩) rfl (by decide)
  simpa using h.2.2.2.2.2.2

/-- Shapes the router step can end in: skipped (absent output or falsy
intent or format), failed model call, or a produced decision. -/
theorem runRouter_shapes (env : Env) (s : AppState) (intent format : String)
    (ao : Option AgentOut) :
    runRouter env s intent format ao = { s with isLoading := false } ∨
    (∃ a e, ao = some a ∧
      runRouter env s intent format ao =
        { s with actionRouterError := some (jsOr e "Error in Action Router"),
                 memoryLog := s.memoryLog ++ [logRp, logRf e],
                 isLoading := false }) ∨
    (∃ a rout, ao = some a ∧
      runRouter env s intent format ao =
        { s with actionRouterOutput := some rout,
                 memoryLog := s.memoryLog ++ [logRp, logRr rout],
                 isLoading := false }) := by
  unfold runRouter
  cases ao with
  | none => exact Or.inl rfl
  | some a =>
    dsimp only
    split_ifs with hskip
    · exact Or.inl rfl
    · cases hr : env.routeActionPrompt
        { agentOutput := a.toJson, intent := intent, format := format } with
      | error e =>
        refine Or.inr (Or.inl ⟨a, e, rfl, ?_⟩)
        simp [logRp, logRf]
      | ok mout =>
        refine Or.inr (Or.inr ⟨a, (routeAction mout
          { agentOutput := a.toJson, intent := intent, format := format }).1, rfl, ?_⟩)
        simp [logRp, logRr]

/-- Shapes the common specialized-agent tail can end in: the extracted
output recorded and then the router step's three shapes on top of it. -/
theorem finishExtract_shapes (env : Env) (s : AppState)
    (cap intent format : String) (ao : Option AgentOut) :
    finishExtract env s cap intent format ao =
      { s with specializedAgentOutput := ao,
               memoryLog := s.memoryLog ++ [logEx cap ao],
               isLoading := false } ∨
    (∃ a e, ao = some a ∧
      finishExtract env s cap intent format ao =
        { s with specializedAgentOutput := ao,
                 actionRouterError := some (jsOr e "Error in Action Router"),
                 memoryLog := s.memoryLog ++ [logEx cap ao, logRp, logRf e],
                 isLoading := false }) ∨
    (∃ a rout, ao = some a ∧
      finishExtract env s cap intent format ao =
        { s with specializedAgentOutput := ao,
                 actionRouterOutput := some rout,
                 memoryLog := s.memoryLog ++ [logEx cap ao, logRp, logRr rout],
                 isLoading := false }) := by
  unfold finishExtract
  rcases runRouter_shapes env
      { s with specializedAgentOutput := ao,
               memoryLog := s.memoryLog ++ [{ agent := cap, output := .extracted ao }] }
      intent format ao with h | ⟨a, e, ha, h⟩ | ⟨a, rout, ha, h⟩
  · exact Or.inl (h.trans (by simp [logEx]))
  · exact Or.inr (Or.inl ⟨a, e, ha, h.trans (by simp [logEx, logRp, logRf])⟩)
  · exact Or.inr (Or.inr ⟨a, rout, ha, h.trans (by simp [logEx, logRp, logRr])⟩)

/-- Shapes the specialized-agent step can end in: skipped on a falsy
format, failed Email or PDF extraction, unmatched format recorded with an
undefined output, or a recorded output followed by the router shapes. -/
theorem runExtract_shapes (env : Env) (s : AppState)
    (cap content intent format : String) :
    runExtract env s cap content intent format = { s with isLoading := false } ∨
    (∃ nm e, (nm = "Email Agent" ∨ nm = "PDF Agent") ∧
      runExtract env s cap content intent format =
        { s with specializedAgentName := nm,
                 specializedAgentError := some (jsOr e ("Error in " ++ cap)),
                 memoryLog := s.memoryLog ++ [logAp nm, logAf cap e],
                 isLoading := false }) ∨
    (runExtract env s cap content intent format =
      { s with specializedAgentOutput := none,
               memoryLog := s.memoryLog ++ [logEx cap none],
               isLoading := false }) ∨
    (∃ nm ao, (nm = "Email Agent" ∨ nm = "JSON Agent" ∨ nm = "PDF Agent") ∧
      runExtract env s cap content intent format =
        { s with specializedAgentName := nm,
                 specializedAgentOutput := some ao,
                 memoryLog := s.memoryLog ++ [logAp nm, logEx cap (some ao)],
                 isLoading := false }) ∨
    (∃ nm ao e, (nm = "Email Agent" ∨ nm = "JSON Agent" ∨ nm = "PDF Agent") ∧
      runExtract env s cap content intent format =
        { s with specializedAgentName := nm,
                 specializedAgentOutput := some ao,
                 actionRouterError := some (jsOr e "Error in Action Router"),
                 memoryLog := s.memoryLog ++
                   [logAp nm, logEx cap (some ao), logRp, logRf e],
                 isLoading := false }) ∨
    (∃ nm ao rout, (nm = "Email Agent" ∨ nm = "JSON Agent" ∨ nm = "PDF Agent") ∧
      runExtract env s cap content intent format =
        { s with specializedAgentName := nm,
                 specializedAgentOutput := some ao,
                 actionRouterOutput := some rout,
                 memoryLog := s.memoryLog ++
                   [logAp nm, logEx cap (some ao), logRp, logRr rout],
                 isLoading := false }) := by
  unfold runExtract
  by_cases hemp : format = ""
  · rw [if_pos hemp]
    exact Or.inl rfl
  · rw [if_neg hemp]
    by_cases hfe : format = "Email"
    · rw [if_pos hfe]
      cases he : env.extractEmailData s.inputValue with
      | error e =>
        refine Or.inr (Or.inl ⟨"Email Agent", e, Or.inl rfl, ?_⟩)
        simp [logAp, logAf]
      | ok o =>
        rcases finishExtract_shapes env
            { s with specializedAgentName := "Email Agent",
                     memoryLog := s.memoryLog ++
                       [{ agent := "Email Agent", output := .processing }] }
            cap intent format (some (.email o)) with h | ⟨a, e, ha, h⟩ | ⟨a, rout, ha, h⟩
        · exact Or.inr (Or.inr (Or.inr (Or.inl ⟨"Email Agent", .email o, Or.inl rfl,
            h.trans (by simp [logAp, logEx])⟩)))
        · exact Or.inr (Or.inr (Or.inr (Or.inr (Or.inl ⟨"Email Agent", .email o, e,
            Or.inl rfl, h.trans (by simp [logAp, logEx, logRp, logRf])⟩))))
        · exact Or.inr (Or.inr (Or.inr (Or.inr (Or.inr ⟨"Email Agent", .email o, rout,
            Or.inl rfl, h.trans (by simp [logAp, logEx, logRp, logRr])⟩))))
    · rw [if_neg hfe]
      by_cases hfj : format = "JSON"
      · rw [if_pos hfj]
        rcases finishExtract_shapes env
            { s with specializedAgentName := "JSON Agent",
                     memoryLog := s.memoryLog ++
                       [{ agent := "JSON Agent", output := .processing }] }
            cap intent format (some (.json (parseJsonWebhook s.inputValue))) with
            h | ⟨a, e, ha, h⟩ | ⟨a, rout, ha, h⟩
        · exact Or.inr (Or.inr (Or.inr (Or.inl ⟨"JSON Agent",
            .json (parseJsonWebhook s.inputValue), Or.inr (Or.inl rfl),
            h.trans (by simp [logAp, logEx])⟩)))
        · exact Or.inr (Or.inr (Or.inr (Or.inr (Or.inl ⟨"JSON Agent",
            .json (parseJsonWebhook s.inputValue), e, Or.inr (Or.inl rfl),
            h.trans (by simp [logAp, logEx, logRp, logRf])⟩))))
        · exact Or.inr (Or.inr (Or.inr (Or.inr (Or.inr ⟨"JSON Agent",
            .json (parseJsonWebhook s.inputValue), rout, Or.inr (Or.inl rfl),
            h.trans (by simp [logAp, logEx, logRp, logRr])⟩))))
      · rw [if_neg hfj]
        by_cases hfp : format = "PDF"
        · rw [if_pos hfp]
          cases hp : env.extractPdfData content with
          | error e =>
            refine Or.inr (Or.inl ⟨"PDF Agent", e, Or.inr rfl, ?_⟩)
            simp [logAp, logAf]
          | ok o =>
            rcases finishExtract_shapes env
                { s with specializedAgentName := "PDF Agent",
                         memoryLog := s.memoryLog ++
                           [{ agent := "PDF Agent", output := .processing }] }
                cap intent format (some (.pdf o)) with h | ⟨a, e, ha, h⟩ | ⟨a, rout, ha, h⟩
            · exact Or.inr (Or.inr (Or.inr (Or.inl ⟨"PDF Agent", .pdf o,
                Or.inr (Or.inr rfl), h.trans (by simp [logAp, logEx])⟩)))
            · exact Or.inr (Or.inr (Or.inr (Or.inr (Or.inl ⟨"PDF Agent", .pdf o, e,
                Or.inr (Or.inr rfl), h.trans (by simp [logAp, logEx, logRp, logRf])⟩))))
            · exact Or.inr (Or.inr (Or.inr (Or.inr (Or.inr ⟨"PDF Agent", .pdf o, rout,
                Or.inr (Or.inr rfl), h.trans (by simp [logAp, logEx, logRp, logRr])⟩))))
        · rw [if_neg hfp]
          rcases finishExtract_shapes env s cap intent format none with
            h | ⟨a, e, ha, h⟩ | ⟨a, rout, ha, h⟩
          · exact Or.inr (Or.inr (Or.inl (h.trans (by simp [logEx]))))
          · exact absurd ha (by simp)
          · exact absurd ha (by simp)

/-- Shapes the classifier step and everything after it can end in. -/
theorem runClassify_shapes (env : Env) (s : AppState) (cap content : String) :
    (∃ e, runClassify env s cap content =
      { s with classifierError := some (jsOr e "Error in Classifier Agent"),
               memoryLog := s.memoryLog ++ [logCp, logCf e],
               isLoading := false }) ∨
    (∃ out, runClassify env s cap content =
      { s with classifierOutput := some out,
               memoryLog := s.memoryLog ++ [logCp, logCc out],
               isLoading := false }) ∨
    (∃ out, runClassify env s cap content =
      { s with classifierOutput := some out,
               specializedAgentOutput := none,
               memoryLog := s.memoryLog ++ [logCp, logCc out, logEx cap none],
               isLoading := false }) ∨
    (∃ out nm e, (nm = "Email Agent" ∨ nm = "PDF Agent") ∧
      runClassify env s cap content =
        { s with classifierOutput := some out,
                 specializedAgentName := nm,
                 specializedAgentError := some (jsOr e ("Error in " ++ cap)),
                 memoryLog := s.memoryLog ++ [logCp, logCc out, logAp nm, logAf cap e],
                 isLoading := false }) ∨
    (∃ out nm ao, (nm = "Email Agent" ∨ nm = "JSON Agent" ∨ nm = "PDF Agent") ∧
      runClassify env s cap content =
        { s with classifierOutput := some out,
                 specializedAgentName := nm,
                 specializedAgentOutput := some ao,
                 memoryLog := s.memoryLog ++
                   [logCp, logCc out, logAp nm, logEx cap (some ao)],
                 isLoading := false }) ∨
    (∃ out nm ao e, (nm = "Email Agent" ∨ nm = "JSON Agent" ∨ nm = "PDF Agent") ∧
      runClassify env s cap content =
        { s with classifierOutput := some out,
                 specializedAgentName := nm,
                 specializedAgentOutput := some ao,
                 actionRouterError := some (jsOr e "Error in Action Router"),
                 memoryLog := s.memoryLog ++
                   [logCp, logCc out, logAp nm, logEx cap (some ao), logRp, logRf e],
                 isLoading := false }) ∨
    (∃ out nm ao rout, (nm = "Email Agent" ∨ nm = "JSON Agent" ∨ nm = "PDF Agent") ∧
      runClassify env s cap content =
        { s with classifierOutput := some out,
                 specializedAgentName := nm,
                 specializedAgentOutput := some ao,
                 actionRouterOutput := some rout,
                 memoryLog := s.memoryLog ++
                   [logCp, logCc out, logAp nm, logEx cap (some ao), logRp, logRr rout],
                 isLoading := false }) := by
  unfold runClassify
  dsimp only
  cases hc : env.classifyDocument (classifierInputFor s.inputType s.inputValue
      s.inputFile) with
  | error e =>
    refine Or.inl ⟨e, ?_⟩
    simp [logCp, logCf]
  | ok out =>
    rcases runExtract_shapes env
        { s with classifierOutput := some out,
                 memoryLog := (s.memoryLog ++
                     [{ agent := "Classifier", output := .processing }]) ++
                   [{ agent := "Classifier", output := .classified out }] }
        cap content out.intent out.format with
        h | ⟨nm, e, hnm, h⟩ | h | ⟨nm, ao, hnm, h⟩ | ⟨nm, ao, e, hnm, h⟩ |
        ⟨nm, ao, rout, hnm, h⟩
    · exact Or.inr (Or.inl ⟨out, h.trans (by simp [logCp, logCc])⟩)
    · exact Or.inr (Or.inr (Or.inr (Or.inl ⟨out, nm, e, hnm,
        h.trans (by simp [logCp, logCc, logAp, logAf])⟩)))
    · exact Or.inr (Or.inr (Or.inl ⟨out,
        h.trans (by simp [logCp, logCc, logEx])⟩))
    · exact Or.inr (Or.inr (Or.inr (Or.inr (Or.inl ⟨out, nm, ao, hnm,
        h.trans (by simp [logCp, logCc, logAp, logEx])⟩))))
    · exact Or.inr (Or.inr (Or.inr (Or.inr (Or.inr (Or.inl ⟨out, nm, ao, e, hnm,
        h.trans (by simp [logCp, logCc, logAp, logEx, logRp, logRf])⟩)))))
    · exact Or.inr (Or.inr (Or.inr (Or.inr (Or.inr (Or.inr ⟨out, nm, ao, rout, hnm,
        h.trans (by simp [logCp, logCc, logAp, logEx, logRp, logRr])⟩)))))

/-- Exhaustive enumeration of the final states a pipeline run can end in:
validation halt, file-read failure, classifier failure, falsy classified
format, unmatched classified format, extraction failure, router skipped on
a falsy intent or format, router model-call failure, and full success. -/
theorem handleProcessRequest_shapes (env : Env) (s0 : AppState) :
    handleProcessRequest env s0 = finalBase s0 ∨
    handleProcessRequest env s0 =
      { finalBase s0 with specializedAgentError := some "Failed to read PDF file." } ∨
    (∃ e, handleProcessRequest env s0 =
      { finalBase s0 with
          classifierError := some (jsOr e "Error in Classifier Agent"),
          memoryLog := s0.memoryLog ++ [logCp, logCf e] }) ∨
    (∃ out, handleProcessRequest env s0 =
      { finalBase s0 with
          classifierOutput := some out,
          memoryLog := s0.memoryLog ++ [logCp, logCc out] }) ∨
    (∃ out, handleProcessRequest env s0 =
      { finalBase s0 with
          classifierOutput := some out,
          memoryLog := s0.memoryLog ++
            [logCp, logCc out, logEx s0.specializedAgentName none] }) ∨
    (∃ out nm e,
      (nm = "Email Agent" ∨ nm = "PDF Agent") ∧
      handleProcessRequest env s0 =
      { finalBase s0 with
          classifierOutput := some out,
          specializedAgentName := nm,
          specializedAgentError := some (jsOr e ("Error in " ++ s0.specializedAgentName)),
          memoryLog := s0.memoryLog ++
            [logCp, logCc out, logAp nm, logAf s0.specializedAgentName e] }) ∨
    (∃ out nm ao,
      (nm = "Email Agent" ∨ nm = "JSON Agent" ∨ nm = "PDF Agent") ∧
      handleProcessRequest env s0 =
      { finalBase s0 with
          classifierOutput := some out,
          specializedAgentName := nm,
          specializedAgentOutput := some ao,
          memoryLog := s0.memoryLog ++
            [logCp, logCc out, logAp nm, logEx s0.specializedAgentName (some ao)] }) ∨
    (∃ out nm ao e,
      (nm = "Email Agent" ∨ nm = "JSON Agent" ∨ nm = "PDF Agent") ∧
      handleProcessRequest env s0 =
      { finalBase s0 with
          classifierOutput := some out,
          specializedAgentName := nm,
          specializedAgentOutput := some ao,
          actionRouterError := some (jsOr e "Error in Action Router"),
          memoryLog := s0.memoryLog ++
            [logCp, logCc out, logAp nm, logEx s0.specializedAgentName (some ao),
             logRp, logRf e] }) ∨
    (∃ out nm ao rout,
      (nm = "Email Agent" ∨ nm = "JSON Agent" ∨ nm = "PDF Agent") ∧
      handleProcessRequest env s0 =
      { finalBase s0 with
          classifierOutput := some out,
          specializedAgentName := nm,
          specializedAgentOutput := some ao,
          actionRouterOutput := some rout,
          memoryLog := s0.memoryLog ++
            [logCp, logCc out, logAp nm, logEx s0.specializedAgentName (some ao),
             logRp, logRr rout] }) := by
  unfold handleProcessRequest
  by_cases hty : s0.inputType = InputType.PDF
  · rw [if_pos hty]
    cases hfile : s0.inputFile with
    | none =>
      exact Or.inl (by simp [finalBase, hfile])
    | some f =>
      dsimp only
      cases huri : env.fileToDataUri f with
      | error e =>
        exact Or.inr (Or.inl (by simp [finalBase, hfile, huri]))
      | ok uri =>
        dsimp only
        have h := runClassify_shapes env
          { s0 with isLoading := true,
                    classifierOutput := none, classifierError := none,
                    specializedAgentOutput := none, specializedAgentError := none,
                    actionRouterOutput := none, actionRouterError := none }
          s0.specializedAgentName uri
        rw [hfile] at h
        rcases h with ⟨e, h⟩ | ⟨out, h⟩ | ⟨out, h⟩ | ⟨out, nm, e, hnm, h⟩ |
          ⟨out, nm, ao, hnm, h⟩ | ⟨out, nm, ao, e, hnm, h⟩ | ⟨out, nm, ao, rout, hnm, h⟩
        · exact Or.inr (Or.inr (Or.inl ⟨e, h.trans (by simp [finalBase, hfile])⟩))
        · exact Or.inr (Or.inr (Or.inr (Or.inl ⟨out, h.trans (by simp [finalBase, hfile])⟩)))
        · exact Or.inr (Or.inr (Or.inr (Or.inr (Or.inl
            ⟨out, h.trans (by simp [finalBase, hfile])⟩))))
        · exact Or.inr (Or.inr (Or.inr (Or.inr (Or.inr (Or.inl
            ⟨out, nm, e, hnm, h.trans (by simp [finalBase, hfile])⟩)))))
        · exact Or.inr (Or.inr (Or.inr (Or.inr (Or.inr (Or.inr (Or.inl
            ⟨out, nm, ao, hnm, h.trans (by simp [finalBase, hfile])⟩))))))
        · exact Or.inr (Or.inr (Or.inr (Or.inr (Or.inr (Or.inr (Or.inr (Or.inl
            ⟨out, nm, ao, e, hnm, h.trans (by simp [finalBase, hfile])⟩)))))))
        · exact Or.inr (Or.inr (Or.inr (Or.inr (Or.inr (Or.inr (Or.inr (Or.inr
            ⟨out, nm, ao, rout, hnm, h.trans (by simp [finalBase, hfile])⟩)))))))
  · rw [if_neg hty]
    by_cases hb : jsTrim s0.inputValue = ""
    · rw [if_pos hb]
      exact Or.inl (by simp [finalBase])
    · rw [if_neg hb]
      have h := runClassify_shapes env
        { s0 with isLoading := true,
                  classifierOutput := none, classifierError := none,
                  specializedAgentOutput := none, specializedAgentError := none,
                  actionRouterOutput := none, actionRouterError := none }
        s0.specializedAgentName s0.inputValue
      rcases h with ⟨e, h⟩ | ⟨out, h⟩ | ⟨out, h⟩ | ⟨out, nm, e, hnm, h⟩ |
        ⟨out, nm, ao, hnm, h⟩ | ⟨out, nm, ao, e, hnm, h⟩ | ⟨out, nm, ao, rout, hnm, h⟩
      · exact Or.inr (Or.inr (Or.inl ⟨e, h.trans (by simp [finalBase])⟩))
      · exact Or.inr (Or.inr (Or.inr (Or.inl ⟨out, h.trans (by simp [finalBase])⟩)))
      · exact Or.inr (Or.inr (Or.inr (Or.inr (Or.inl
          ⟨out, h.trans (by simp [finalBase])⟩))))
      · exact Or.inr (Or.inr (Or.inr (Or.inr (Or.inr (Or.inl
          ⟨out, nm, e, hnm, h.trans (by simp [finalBase])⟩)))))
      · exact Or.inr (Or.inr (Or.inr (Or.inr (Or.inr (Or.inr (Or.inl
          ⟨out, nm, ao, hnm, h.trans (by simp [finalBase])⟩))))))
      · exact Or.inr (Or.inr (Or.inr (Or.inr (Or.inr (Or.inr (Or.inr (Or.inl
          ⟨out, nm, ao, e, hnm, h.trans (by simp [finalBase])⟩)))))))
      · exact Or.inr (Or.inr (Or.inr (Or.inr (Or.inr (Or.inr (Or.inr (Or.inr
          ⟨out, nm, ao, rout, hnm, h.trans (by simp [finalBase])⟩)))))))

/-- C3: a routing decision exists in the final state only when the
classification and extraction results both exist and neither of those
stages recorded an error; and whenever classifying or extracting failed,
or extraction produced no output, the router stage was never entered: the
log gains no router-stage entry and no routing decision or router error
exists. -/
theorem routing_only_after_success (env : Env) (s0 s1 : AppState)
    (hs1 : s1 = handleProcessRequest env s0) :
    (s1.actionRouterOutput.isSome = true →
      s1.classifierOutput.isSome = true ∧ s1.specializedAgentOutput.isSome = true ∧
      s1.classifierError = none ∧ s1.specializedAgentError = none) ∧
    ((s1.classifierError.isSome = true ∨ s1.specializedAgentError.isSome = true ∨
      s1.specializedAgentOutput = none) →
      routerEntries s1.memoryLog = routerEntries s0.memoryLog ∧
      s1.actionRouterOutput = none ∧ s1.actionRouterError = none) := by
  rcases handleProcessRequest_shapes env s0 with
    h | h | ⟨e, h⟩ | ⟨out, h⟩ | ⟨out, h⟩ |
    ⟨out, nm, e, hnm, h⟩ | ⟨out, nm, ao, hnm, h⟩ |
    ⟨out, nm, ao, e, hnm, h⟩ | ⟨out, nm, ao, rout, hnm, h⟩
  · rw [hs1, h]
    constructor <;> intro hyp <;>
      simp_all [finalBase, routerEntries, isRouterStageEntry, List.filter_append,
        logCp, logCc, logCf, logAp, logEx, logAf, logRp, logRf, logRr]
  · rw [hs1, h]
    constructor <;> intro hyp <;>
      simp_all [finalBase, routerEntries, isRouterStageEntry, List.filter_append,
        logCp, logCc, logCf, logAp, logEx, logAf, logRp, logRf, logRr]
  · rw [hs1, h]
    constructor <;> intro hyp <;>
      simp_all [finalBase, routerEntries, isRouterStageEntry, List.filter_append,
        logCp, logCc, logCf, logAp, logEx, logAf, logRp, logRf, logRr]
  · rw [hs1, h]
    constructor <;> intro hyp <;>
      simp_all [finalBase, routerEntries, isRouterStageEntry, List.filter_append,
        logCp, logCc, logCf, logAp, logEx, logAf, logRp, logRf, logRr]
  · rw [hs1, h]
    constructor <;> intro hyp <;>
      simp_all [finalBase, routerEntries, isRouterStageEntry, List.filter_append,
        logCp, logCc, logCf, logAp, logEx, logAf, logRp, logRf, logRr]
  · rcases hnm with rfl | rfl <;> rw [hs1, h] <;> constructor <;> intro hyp <;>
      simp_all [finalBase, routerEntries, isRouterStageEntry, List.filter_append,
        logCp, logCc, logCf, logAp, logEx, logAf, logRp, logRf, logRr]
  · rcases hnm with rfl | rfl | rfl <;> rw [hs1, h] <;> constructor <;> intro hyp <;>
      simp_all [finalBase, routerEntries, isRouterStageEntry, List.filter_append,
        logCp, logCc, logCf, logAp, logEx, logAf, logRp, logRf, logRr]
  · rcases hnm with rfl | rfl | rfl <;> rw [hs1, h] <;> constructor <;> intro hyp <;>
      simp_all [finalBase, routerEntries, isRouterStageEntry, List.filter_append,
        logCp, logCc, logCf, logAp, logEx, logAf, logRp, logRf, logRr]
  · rcases hnm with rfl | rfl | rfl <;> rw [hs1, h] <;> constructor <;> intro hyp <;>
      simp_all [finalBase, routerEntries, isRouterStageEntry, List.filter_append,
        logCp, logCc, logCf, logAp, logEx, logAf, logRp, logRf, logRr]

/-- Witness for C3 applied to a concrete fresh Email run under the failing
environment. -/
theorem routing_only_after_success_witness :
    (handleProcessRequest stubEnv (initState .Email "hi")).actionRouterOutput = none ∧
    (handleProcessRequest stubEnv (initState .Email "hi")).classifierError.isSome = true :=
  ⟨((routing_only_after_success stubEnv (initState .Email "hi")
      (handleProcessRequest stubEnv (initState .Email "hi")) rfl).2 (Or.inl rfl)).2.1,
   rfl⟩

/-- C9: when the router stage fails, the error lands on the router alone:
the classification and extraction results are present with no error
recorded against them, no routing decision exists, the run still completes
(loading cleared), the pre-run log prefix is untouched, and among the
appended entries exactly one records an error and it carries the Action
Router label. -/
theorem router_failure_frame (env : Env) (s0 s1 : AppState)
    (hs1 : s1 = handleProcessRequest env s0)
    (herr : s1.actionRouterError.isSome = true) :
    s1.classifierOutput.isSome = true ∧ s1.classifierError = none ∧
    s1.specializedAgentOutput.isSome = true ∧ s1.specializedAgentError = none ∧
    s1.actionRouterOutput = none ∧ s1.isLoading = false ∧
    s1.memoryLog.take s0.memoryLog.length = s0.memoryLog ∧
    ((s1.memoryLog.drop s0.memoryLog.length).filter isErrorEntry).map (fun e => e.agent) =
      ["Action Router"] := by
  rcases handleProcessRequest_shapes env s0 with
    h | h | ⟨e, h⟩ | ⟨out, h⟩ | ⟨out, h⟩ |
    ⟨out, nm, e, hnm, h⟩ | ⟨out, nm, ao, hnm, h⟩ |
    ⟨out, nm, ao, e, hnm, h⟩ | ⟨out, nm, ao, rout, hnm, h⟩ <;>
  rw [hs1, h] at herr ⊢ <;>
  simp_all [finalBase, isErrorEntry, List.filter_append,
    logCp, logCc, logCf, logAp, logEx, logAf, logRp, logRf, logRr]

/-- Witness for C9 at a concrete Email run whose router model call throws. -/
theorem router_failure_frame_witness :
    (handleProcessRequest routerFailEnv (initState .Email "hi")).classifierOutput.isSome = true ∧
    (handleProcessRequest routerFailEnv (initState .Email "hi")).actionRouterOutput = none :=
  ⟨(router_failure_frame routerFailEnv (initState .Email "hi")
      (handleProcessRequest routerFailEnv (initState .Email "hi")) rfl rfl).1,
   (router_failure_frame routerFailEnv (initState .Email "hi")
      (handleProcessRequest routerFailEnv (initState .Email "hi")) rfl rfl).2.2.2.2.1⟩
